import Mathlib

/-!
Verification development for the Rafeeq health-monitoring program
(`src/main.py`).  The Python source is shallowly embedded: machine
integers become `ℤ`/`ℕ`, Python floats used only in order comparisons
become `ℚ`, the Excel sheets become lists of rows, and the mutable
globals (`LAST_AUTO_CALL`, the call-counter label) become fields of an
explicit system state threaded through the transition functions.
External effects (the Twilio call, GUI labels) are modelled by their
observable outcome: a `callOk : Bool` parameter says whether
`client.calls.create` succeeded, and label text is reduced to the data
it carries (the call counter).
-/

/-- The five emotional states produced by the classifier
(display strings in the source: "STABLE", "MILD DISCOMFORT",
"MODERATE STRESS", "HIGH ANXIETY", "CRITICAL DISTRESS"). -/
inductive Emotion where
  | stable
  | mildDiscomfort
  | moderateStress
  | highAnxiety
  | criticalDistress
deriving DecidableEq, Repr

/-- Result dictionary of `EmotionAnalyzer.analyze` (main.py lines 91-96). -/
structure Assessment where
  emotion : Emotion
  score : ℕ
  color : String
  factors : List String
deriving DecidableEq, Repr

/-- Emotion classification block of `EmotionAnalyzer.analyze`
(main.py lines 74-89); the classification depends only on the score. -/
def emotionOfScore (score : ℕ) : Emotion :=
  if score ≥ 60 then Emotion.criticalDistress
  else if score ≥ 40 then Emotion.highAnxiety
  else if score ≥ 25 then Emotion.moderateStress
  else if score ≥ 10 then Emotion.mildDiscomfort
  else Emotion.stable

/-- Display color chosen alongside the emotion (main.py lines 74-89). -/
def colorOfScore (score : ℕ) : String :=
  if score ≥ 60 then "#D50000"
  else if score ≥ 40 then "#FF6D00"
  else if score ≥ 25 then "#FFA000"
  else if score ≥ 10 then "#FBC02D"
  else "#00C853"

namespace EmotionAnalyzer

/-- `EmotionAnalyzer.analyze` (main.py lines 40-96).  The source
accumulates `score` and `factors` through a fixed sequence of
independent if/elif rules; here each rule's score and factor
contributions are named and then summed/concatenated in the same
order. -/
def analyze (heart_rate spo2 : ℤ) (temp : ℚ) (fall_detected help_pressed : Bool) :
    Assessment :=
  -- Heart Rate Analysis
  let hrScore : ℕ := if heart_rate > 130 then 30 else if heart_rate > 110 then 15 else 0
  let hrFactors : List String :=
    if heart_rate > 130 then ["elevated_hr"]
    else if heart_rate > 110 then ["raised_hr"] else []
  -- SpO2 Analysis
  let spo2Score : ℕ := if spo2 < 92 then 25 else if spo2 < 95 then 10 else 0
  let spo2Factors : List String :=
    if spo2 < 92 then ["low_oxygen"]
    else if spo2 < 95 then ["reduced_oxygen"] else []
  -- Temperature Analysis
  let tempScore : ℕ := if temp > 38 ∨ temp < 36 then 15 else 0
  let tempFactors : List String := if temp > 38 ∨ temp < 36 then ["temp_abnormal"] else []
  -- Critical Events
  let fallScore : ℕ := if fall_detected then 40 else 0
  let fallFactors : List String := if fall_detected then ["fall_trauma"] else []
  let helpScore : ℕ := if help_pressed then 35 else 0
  let helpFactors : List String := if help_pressed then ["distress_signal"] else []
  let score := hrScore + spo2Score + tempScore + fallScore + helpScore
  let factors := hrFactors ++ spo2Factors ++ tempFactors ++ fallFactors ++ helpFactors
  -- Emotion Classification
  { emotion := emotionOfScore score
    score := score
    color := colorOfScore score
    factors := factors }

end EmotionAnalyzer

/-! ## Thresholds and cooldown constant (main.py lines 22-32) -/

def HEART_RATE_CRITICAL : ℤ := 140
def HEART_RATE_WARNING : ℤ := 120
def SPO2_CRITICAL : ℤ := 90
def SPO2_WARNING : ℤ := 93
def TEMP_CRITICAL_HIGH : ℚ := 38.5
def TEMP_CRITICAL_LOW : ℚ := 35.5

/-- `AUTO_CALL_COOLDOWN = 30` seconds between auto-calls. -/
def AUTO_CALL_COOLDOWN : ℚ := 30

/-! ## System state

The mutable data of the program: the four Excel sheets kept by
`VitalSignsMonitor`, the global `LAST_AUTO_CALL`, and the running call
counter shown in the `call_counter` label.  `scoredLog` is pure
instrumentation: it records, in order, every argument tuple on which
`EmotionAnalyzer.analyze` is invoked by the transition functions, so
that "a reading was scored" is expressible. -/

/-- A `sensor_data` dictionary (the argument of `trigger_emergency_call`). -/
structure Reading where
  hr : ℤ
  spo2 : ℤ
  temp : ℚ
  fall : Bool
  help : Bool
deriving DecidableEq, Repr

/-- One row of the `Vital_Signs` sheet (main.py lines 163-170). -/
structure VitalRow where
  timestamp : ℚ
  heartRateBPM : ℤ
  spo2Percent : ℤ
  temperatureCelsius : ℚ
  emotionalState : Emotion
  emotionScore : ℕ
deriving DecidableEq, Repr

/-- One row of the `Emergency_Calls` sheet (main.py lines 188-196). -/
structure EmergencyRow where
  timestamp : ℚ
  alertType : String
  heartRate : ℤ
  spo2 : ℤ
  temperature : ℚ
  emotionState : Emotion
  autoTriggered : Bool
deriving DecidableEq, Repr

/-- The observable state of the running program. -/
structure SysState where
  vitalLog : List VitalRow
  emergencyLog : List EmergencyRow
  fallLog : List ℚ
  helpLog : List ℚ
  lastAutoCall : Option ℚ
  totalCalls : ℕ
  scoredLog : List Reading
deriving DecidableEq, Repr

/-- Process start: empty sheets, `LAST_AUTO_CALL = None`,
`Total Calls: 0`. -/
def initState : SysState :=
  { vitalLog := [], emergencyLog := [], fallLog := [], helpLog := [],
    lastAutoCall := none, totalCalls := 0, scoredLog := [] }

/-! ## Emergency call handler (main.py lines 241-319) -/

/-- `trigger_emergency_call` (main.py lines 241-319), sequentially.
`callOk` says whether `client.calls.create` returned normally; on an
exception the `except` branch only reports, so the counter increment
(line 307-308) and the `LAST_AUTO_CALL` update (lines 311-312) are
skipped.  The `HELP`/`FALL` ledger appends happen while the message is
built (lines 262-269), before the call is placed. -/
def trigger_emergency_call (alert_type : String) (sensor_data : Reading)
    (auto_triggered : Bool) (callOk : Bool) (now : ℚ) (s : SysState) : SysState :=
  -- Emotion Analysis (line 254)
  let emotion_state := EmotionAnalyzer.analyze sensor_data.hr sensor_data.spo2
    sensor_data.temp sensor_data.fall sensor_data.help
  let s1 := { s with scoredLog := s.scoredLog ++ [sensor_data] }
  -- Log to Excel: monitor.append_emergency_call (line 257)
  let s2 := { s1 with emergencyLog := s1.emergencyLog ++
    [{ timestamp := now, alertType := alert_type, heartRate := sensor_data.hr,
       spo2 := sensor_data.spo2, temperature := sensor_data.temp,
       emotionState := emotion_state.emotion, autoTriggered := auto_triggered }] }
  -- Build message; HELP appends a help request, FALL a fall event (lines 262-269)
  let s3 :=
    if alert_type = "HELP" then { s2 with helpLog := s2.helpLog ++ [now] }
    else if alert_type = "FALL" then { s2 with fallLog := s2.fallLog ++ [now] }
    else s2
  -- Make Voice Call (lines 285-316)
  if callOk then
    -- Increment Call Counter (lines 307-308)
    let s4 := { s3 with totalCalls := s3.totalCalls + 1 }
    -- Update last auto-call time (lines 310-312)
    if auto_triggered then { s4 with lastAutoCall := some now } else s4
  else s3

/-! ## Sensor loop body and events (main.py lines 322-422, 543-561) -/

/-- The cooldown check of the auto-trigger path (main.py line 394):
`LAST_AUTO_CALL is None or (current_time - LAST_AUTO_CALL) >= AUTO_CALL_COOLDOWN`. -/
def cooldownOpen (last : Option ℚ) (current_time : ℚ) : Bool :=
  match last with
  | none => true
  | some t => decide (current_time - t ≥ AUTO_CALL_COOLDOWN)

/-- Alert-type selection of the auto-trigger path (main.py lines 396-404). -/
def alertTypeFor (hr spo2 : ℤ) (temp : ℚ) : String :=
  if hr > HEART_RATE_CRITICAL then "HEART"
  else if spo2 < SPO2_CRITICAL then "SPO2"
  else if temp > TEMP_CRITICAL_HIGH then "TEMP"
  else "GENERAL"

/-- One iteration of `simulate_sensor_readings` (main.py lines 335-422)
for a generated reading `(hr, spo2, temp)` with spike flag
`should_spike`: score it, append it to the `Vital_Signs` sheet, and if
candidacy (`should_spike or emotion['score'] >= 25`, line 391) and the
cooldown gate (line 394) both hold, run `trigger_emergency_call` with
`auto_triggered=True` (lines 417-420; the dispatch thread is modelled
as completing before the next event). -/
def simulateStep (hr spo2 : ℤ) (temp : ℚ) (should_spike callOk : Bool)
    (now : ℚ) (s : SysState) : SysState :=
  -- Emotion Analysis (line 357)
  let emotion := EmotionAnalyzer.analyze hr spo2 temp false false
  -- Save to Excel, every reading (line 360)
  let s1 := { s with
    scoredLog := s.scoredLog ++ [{ hr := hr, spo2 := spo2, temp := temp,
                                   fall := false, help := false }],
    vitalLog := s.vitalLog ++
      [{ timestamp := now, heartRateBPM := hr, spo2Percent := spo2,
         temperatureCelsius := temp, emotionalState := emotion.emotion,
         emotionScore := emotion.score }] }
  -- AUTO-TRIGGER EMERGENCY CALL IF CRITICAL (lines 390-420)
  if should_spike || decide (emotion.score ≥ 25) then
    if cooldownOpen s1.lastAutoCall now then
      trigger_emergency_call (alertTypeFor hr spo2 temp)
        { hr := hr, spo2 := spo2, temp := temp, fall := false, help := false }
        true callOk now s1
    else s1
  else s1

/-- The external stimuli the program reacts to: a sensor-loop tick, a
manual emergency button (`RafeeqAdvancedSystem.trigger_alert`, lines
543-556, which always dispatches with `auto_triggered=False`), and the
reset button (`reset_counter`, lines 558-561). -/
inductive Event where
  | sensor (hr spo2 : ℤ) (temp : ℚ) (should_spike callOk : Bool) (now : ℚ)
  | manual (alert_type : String) (hr spo2 : ℤ) (temp : ℚ)
      (fall help callOk : Bool) (now : ℚ)
  | reset
deriving DecidableEq, Repr

/-- Transition of a single event. -/
def stepEvent (e : Event) (s : SysState) : SysState :=
  match e with
  | Event.sensor hr spo2 temp should_spike callOk now =>
      simulateStep hr spo2 temp should_spike callOk now s
  | Event.manual alert_type hr spo2 temp fall help callOk now =>
      trigger_emergency_call alert_type
        { hr := hr, spo2 := spo2, temp := temp, fall := fall, help := help }
        false callOk now s
  | Event.reset => { s with totalCalls := 0 }

/-- Run of the program from process start over a list of events. -/
def runEvents (es : List Event) : SysState :=
  es.foldl (fun s e => stepEvent e s) initState

/-- Specification-side description of the `Vital_Signs` rows an event
contributes: a sensor-loop tick contributes exactly the one row built
from its reading, any other event contributes none.  (To be compared
with what `runEvents` actually records.) -/
def vitalRowsOf (e : Event) : List VitalRow :=
  match e with
  | Event.sensor hr spo2 temp _ _ now =>
      [{ timestamp := now, heartRateBPM := hr, spo2Percent := spo2,
         temperatureCelsius := temp,
         emotionalState := (EmotionAnalyzer.analyze hr spo2 temp false false).emotion,
         emotionScore := (EmotionAnalyzer.analyze hr spo2 temp false false).score }]
  | _ => []

/-! ## Excel-file initialization (main.py lines 134-158) -/

/-- The backing Excel workbook: the four sheets created by
`init_excel_file`. -/
structure ExcelFile where
  vitalSigns : List VitalRow
  emergencyCalls : List EmergencyRow
  fallEvents : List ℚ
  helpRequests : List ℚ
deriving DecidableEq, Repr

/-- The freshly created workbook: four empty sheets. -/
def emptyExcelFile : ExcelFile :=
  { vitalSigns := [], emergencyCalls := [], fallEvents := [], helpRequests := [] }

/-- `VitalSignsMonitor.init_excel_file` (main.py lines 134-158): if the
file does not exist (`none`), create it with the four empty sheets;
otherwise the guard `if not self.excel_file.exists()` skips the whole
body and the file is untouched. -/
def init_excel_file (store : Option ExcelFile) : Option ExcelFile :=
  match store with
  | none => some emptyExcelFile
  | some f => some f

/-! ## Unsynchronized read-modify-write append (main.py lines 160-183)

`append_vital_reading` / `append_emergency_call` append by reading the
whole sheet (`pd.read_excel`), concatenating one row, and writing the
sheet back — with no lock, although dispatches run on separate threads
(lines 417-420, 553-556) and may interleave.  The model below makes
the read and the write of two concurrent appends to the same sheet
separately schedulable steps, so interleavings can be examined. -/

/-- State of one sheet while two append operations are in flight:
the sheet plus each appender's snapshot from its `pd.read_excel`. -/
structure RmwState where
  sheet : List EmergencyRow
  snap1 : Option (List EmergencyRow)
  snap2 : Option (List EmergencyRow)
deriving DecidableEq, Repr

/-- The four atomic steps of two concurrent appends: each append is a
read (take a snapshot of the sheet) followed by a write (replace the
sheet with snapshot + new row).  In a real execution a write always
follows its own read, so the `getD` default is never taken on a
well-formed schedule. -/
inductive RmwOp where
  | read1
  | write1
  | read2
  | write2
deriving DecidableEq, Repr

/-- One atomic step of the two in-flight appends of rows `r1`, `r2`. -/
def rmwStep (r1 r2 : EmergencyRow) (s : RmwState) (op : RmwOp) : RmwState :=
  match op with
  | RmwOp.read1 => { s with snap1 := some s.sheet }
  | RmwOp.write1 => { s with sheet := s.snap1.getD s.sheet ++ [r1] }
  | RmwOp.read2 => { s with snap2 := some s.sheet }
  | RmwOp.write2 => { s with sheet := s.snap2.getD s.sheet ++ [r2] }

/-- Execute a schedule (an interleaving) of the two appends. -/
def runRmw (r1 r2 : EmergencyRow) (sched : List RmwOp) (s : RmwState) : RmwState :=
  sched.foldl (rmwStep r1 r2) s

/-- A sample row appended by the first in-flight dispatch. -/
def rmwRowA : EmergencyRow :=
  { timestamp := 0, alertType := "GENERAL", heartRate := 150, spo2 := 97,
    temperature := 37, emotionState := Emotion.highAnxiety, autoTriggered := true }

/-- A sample row appended by the second in-flight dispatch. -/
def rmwRowB : EmergencyRow :=
  { timestamp := 1, alertType := "HEART", heartRate := 155, spo2 := 96,
    temperature := 37, emotionState := Emotion.moderateStress, autoTriggered := false }

/-! ## Unfolding lemmas for the scorer -/

/-- The score of `analyze`, unfolded (definitional). -/
lemma analyze_score (heart_rate spo2 : ℤ) (temp : ℚ) (fall_detected help_pressed : Bool) :
    (EmotionAnalyzer.analyze heart_rate spo2 temp fall_detected help_pressed).score =
      (if heart_rate > 130 then 30 else if heart_rate > 110 then 15 else 0) +
      (if spo2 < 92 then 25 else if spo2 < 95 then 10 else 0) +
      (if temp > 38 ∨ temp < 36 then 15 else 0) +
      (if fall_detected then 40 else 0) +
      (if help_pressed then 35 else 0) := rfl

/-- The factors of `analyze`, unfolded (definitional). -/
lemma analyze_factors (heart_rate spo2 : ℤ) (temp : ℚ) (fall_detected help_pressed : Bool) :
    (EmotionAnalyzer.analyze heart_rate spo2 temp fall_detected help_pressed).factors =
      (if heart_rate > 130 then ["elevated_hr"]
       else if heart_rate > 110 then ["raised_hr"] else []) ++
      (if spo2 < 92 then ["low_oxygen"]
       else if spo2 < 95 then ["reduced_oxygen"] else []) ++
      (if temp > 38 ∨ temp < 36 then ["temp_abnormal"] else []) ++
      (if fall_detected then ["fall_trauma"] else []) ++
      (if help_pressed then ["distress_signal"] else []) := rfl

/-- The emotion of `analyze` is the classification of its score
(definitional). -/
lemma analyze_emotion (heart_rate spo2 : ℤ) (temp : ℚ) (fall_detected help_pressed : Bool) :
    (EmotionAnalyzer.analyze heart_rate spo2 temp fall_detected help_pressed).emotion =
      emotionOfScore
        (EmotionAnalyzer.analyze heart_rate spo2 temp fall_detected help_pressed).score := rfl

/-! ## Field lemmas for the transition functions -/

/-- `trigger_emergency_call` never touches the `Vital_Signs` sheet. -/
lemma trigger_vitalLog (a : String) (d : Reading) (auto callOk : Bool)
    (now : ℚ) (s : SysState) :
    (trigger_emergency_call a d auto callOk now s).vitalLog = s.vitalLog := by
  simp only [trigger_emergency_call]
  split_ifs <;> rfl

/-- `trigger_emergency_call` appends exactly one `Emergency_Calls` row. -/
lemma trigger_emergencyLog (a : String) (d : Reading) (auto callOk : Bool)
    (now : ℚ) (s : SysState) :
    (trigger_emergency_call a d auto callOk now s).emergencyLog =
      s.emergencyLog ++
      [{ timestamp := now, alertType := a, heartRate := d.hr, spo2 := d.spo2,
         temperature := d.temp,
         emotionState := (EmotionAnalyzer.analyze d.hr d.spo2 d.temp d.fall d.help).emotion,
         autoTriggered := auto }] := by
  simp only [trigger_emergency_call]
  split_ifs <;> rfl

/-- `trigger_emergency_call` scores its reading exactly once. -/
lemma trigger_scoredLog (a : String) (d : Reading) (auto callOk : Bool)
    (now : ℚ) (s : SysState) :
    (trigger_emergency_call a d auto callOk now s).scoredLog = s.scoredLog ++ [d] := by
  simp only [trigger_emergency_call]
  split_ifs <;> rfl

/-- `LAST_AUTO_CALL` after `trigger_emergency_call`: set to `now` only
when the handler ran auto-triggered and the call succeeded. -/
lemma trigger_lastAutoCall (a : String) (d : Reading) (auto callOk : Bool)
    (now : ℚ) (s : SysState) :
    (trigger_emergency_call a d auto callOk now s).lastAutoCall =
      if auto && callOk then some now else s.lastAutoCall := by
  simp only [trigger_emergency_call]
  split_ifs <;> simp_all

/-- The call counter after `trigger_emergency_call`: incremented only
when the call succeeded. -/
lemma trigger_totalCalls (a : String) (d : Reading) (auto callOk : Bool)
    (now : ℚ) (s : SysState) :
    (trigger_emergency_call a d auto callOk now s).totalCalls =
      if callOk then s.totalCalls + 1 else s.totalCalls := by
  simp only [trigger_emergency_call]
  split_ifs <;> simp_all

/-- `simulateStep` appends exactly one `Vital_Signs` row, whatever the
escalation branch does. -/
lemma simulateStep_vitalLog (hr spo2 : ℤ) (temp : ℚ) (should_spike callOk : Bool)
    (now : ℚ) (s : SysState) :
    (simulateStep hr spo2 temp should_spike callOk now s).vitalLog =
      s.vitalLog ++
      [{ timestamp := now, heartRateBPM := hr, spo2Percent := spo2,
         temperatureCelsius := temp,
         emotionalState := (EmotionAnalyzer.analyze hr spo2 temp false false).emotion,
         emotionScore := (EmotionAnalyzer.analyze hr spo2 temp false false).score }] := by
  simp only [simulateStep]
  split_ifs <;> simp [trigger_vitalLog]

/-- When candidacy and the cooldown gate hold, `simulateStep` dispatches
one auto-triggered emergency call of type `alertTypeFor hr spo2 temp`. -/
lemma simulateStep_emergencyLog_dispatch (hr spo2 : ℤ) (temp : ℚ)
    (should_spike callOk : Bool) (now : ℚ) (s : SysState)
    (hc : (should_spike ||
      decide ((EmotionAnalyzer.analyze hr spo2 temp false false).score ≥ 25)) = true)
    (hg : cooldownOpen s.lastAutoCall now = true) :
    (simulateStep hr spo2 temp should_spike callOk now s).emergencyLog =
      s.emergencyLog ++
      [{ timestamp := now, alertType := alertTypeFor hr spo2 temp, heartRate := hr,
         spo2 := spo2, temperature := temp,
         emotionState := (EmotionAnalyzer.analyze hr spo2 temp false false).emotion,
         autoTriggered := true }] := by
  simp only [simulateStep]
  rw [if_pos hc, if_pos hg, trigger_emergencyLog]

/-- When the cooldown gate is closed, `simulateStep` dispatches nothing. -/
lemma simulateStep_emergencyLog_blocked (hr spo2 : ℤ) (temp : ℚ)
    (should_spike callOk : Bool) (now : ℚ) (s : SysState)
    (hg : cooldownOpen s.lastAutoCall now = false) :
    (simulateStep hr spo2 temp should_spike callOk now s).emergencyLog =
      s.emergencyLog := by
  simp only [simulateStep]
  split_ifs with h1 h2
  · simp [hg] at h2
  · rfl
  · rfl

/-- `LAST_AUTO_CALL` after a dispatching `simulateStep`: set to `now`
exactly when the call succeeds. -/
lemma simulateStep_lastAutoCall_dispatch (hr spo2 : ℤ) (temp : ℚ)
    (should_spike callOk : Bool) (now : ℚ) (s : SysState)
    (hc : (should_spike ||
      decide ((EmotionAnalyzer.analyze hr spo2 temp false false).score ≥ 25)) = true)
    (hg : cooldownOpen s.lastAutoCall now = true) :
    (simulateStep hr spo2 temp should_spike callOk now s).lastAutoCall =
      if callOk then some now else s.lastAutoCall := by
  simp only [simulateStep]
  rw [if_pos hc, if_pos hg, trigger_lastAutoCall]
  cases callOk <;> rfl

/-- `LAST_AUTO_CALL` is untouched by a `simulateStep` whose cooldown
gate is closed. -/
lemma simulateStep_lastAutoCall_blocked (hr spo2 : ℤ) (temp : ℚ)
    (should_spike callOk : Bool) (now : ℚ) (s : SysState)
    (hg : cooldownOpen s.lastAutoCall now = false) :
    (simulateStep hr spo2 temp should_spike callOk now s).lastAutoCall =
      s.lastAutoCall := by
  simp only [simulateStep]
  split_ifs with h1 h2
  · simp [hg] at h2
  · rfl
  · rfl

/-- The call counter never decreases across a `simulateStep`. -/
lemma simulateStep_totalCalls_mono (hr spo2 : ℤ) (temp : ℚ)
    (should_spike callOk : Bool) (now : ℚ) (s : SysState) :
    s.totalCalls ≤ (simulateStep hr spo2 temp should_spike callOk now s).totalCalls := by
  simp only [simulateStep]
  split_ifs <;> simp [trigger_totalCalls] <;> split_ifs <;> omega

/-- Every event appends to the `Vital_Signs` sheet exactly the rows
`vitalRowsOf` describes. -/
lemma stepEvent_vitalLog (e : Event) (s : SysState) :
    (stepEvent e s).vitalLog = s.vitalLog ++ vitalRowsOf e := by
  cases e <;>
    simp [stepEvent, vitalRowsOf, simulateStep_vitalLog, trigger_vitalLog]

/-- Generalized run lemma: starting from any state, the `Vital_Signs`
sheet after a run is the starting sheet followed by the rows of the
sensor-loop readings, in order. -/
lemma foldl_vitalLog (es : List Event) :
    ∀ s : SysState,
      (es.foldl (fun s e => stepEvent e s) s).vitalLog =
        s.vitalLog ++ es.flatMap vitalRowsOf := by
  induction es with
  | nil => intro s; simp
  | cons e es ih =>
      intro s
      simp only [List.foldl_cons, List.flatMap_cons, ih, stepEvent_vitalLog,
        List.append_assoc]

/-! ## Claims -/

/-- C1: for every input, `EmotionAnalyzer.analyze` returns a score that
is the exact sum of the matching rule points (+30 if heartRate > 130;
+15 if 110 < heartRate ≤ 130; +25 if spo2 < 92; +10 if 92 ≤ spo2 < 95;
+15 if temperature > 38 or < 36; +40 on fall; +35 on help), a factors
list holding exactly the tags of the matching rules, and an emotion
classified from the score by inclusive descending thresholds
(≥60 CriticalDistress, ≥40 HighAnxiety, ≥25 ModerateStress,
≥10 MildDiscomfort, else Stable); in particular score 60 classifies as
CriticalDistress and score 59 as HighAnxiety. -/
theorem C1_scorer_assessment (heart_rate spo2 : ℤ) (temp : ℚ)
    (fall_detected help_pressed : Bool) :
    (EmotionAnalyzer.analyze heart_rate spo2 temp fall_detected help_pressed).score =
      (if heart_rate > 130 then 30 else 0) +
      (if 110 < heart_rate ∧ heart_rate ≤ 130 then 15 else 0) +
      (if spo2 < 92 then 25 else 0) +
      (if 92 ≤ spo2 ∧ spo2 < 95 then 10 else 0) +
      (if temp > 38 ∨ temp < 36 then 15 else 0) +
      (if fall_detected then 40 else 0) +
      (if help_pressed then 35 else 0)
    ∧ (EmotionAnalyzer.analyze heart_rate spo2 temp fall_detected help_pressed).factors =
      (if heart_rate > 130 then ["elevated_hr"] else []) ++
      (if 110 < heart_rate ∧ heart_rate ≤ 130 then ["raised_hr"] else []) ++
      (if spo2 < 92 then ["low_oxygen"] else []) ++
      (if 92 ≤ spo2 ∧ spo2 < 95 then ["reduced_oxygen"] else []) ++
      (if temp > 38 ∨ temp < 36 then ["temp_abnormal"] else []) ++
      (if fall_detected then ["fall_trauma"] else []) ++
      (if help_pressed then ["distress_signal"] else [])
    ∧ (EmotionAnalyzer.analyze heart_rate spo2 temp fall_detected help_pressed).emotion =
      emotionOfScore
        (EmotionAnalyzer.analyze heart_rate spo2 temp fall_detected help_pressed).score
    ∧ (∀ n : ℕ, 60 ≤ n → emotionOfScore n = Emotion.criticalDistress)
    ∧ (∀ n : ℕ, 40 ≤ n → n < 60 → emotionOfScore n = Emotion.highAnxiety)
    ∧ (∀ n : ℕ, 25 ≤ n → n < 40 → emotionOfScore n = Emotion.moderateStress)
    ∧ (∀ n : ℕ, 10 ≤ n → n < 25 → emotionOfScore n = Emotion.mildDiscomfort)
    ∧ (∀ n : ℕ, n < 10 → emotionOfScore n = Emotion.stable)
    ∧ emotionOfScore 60 = Emotion.criticalDistress
    ∧ emotionOfScore 59 = Emotion.highAnxiety := by
  refine ⟨?_, ?_, analyze_emotion heart_rate spo2 temp fall_detected help_pressed,
    ?_, ?_, ?_, ?_, ?_, by decide, by decide⟩
  · rw [analyze_score]
    split_ifs <;> omega
  · rw [analyze_factors]
    split_ifs <;> first | rfl | (exfalso; omega)
  · intro n h
    unfold emotionOfScore
    split_ifs <;> first | rfl | (exfalso; omega)
  · intro n h h2
    unfold emotionOfScore
    split_ifs <;> first | rfl | (exfalso; omega)
  · intro n h h2
    unfold emotionOfScore
    split_ifs <;> first | rfl | (exfalso; omega)
  · intro n h h2
    unfold emotionOfScore
    split_ifs <;> first | rfl | (exfalso; omega)
  · intro n h
    unfold emotionOfScore
    split_ifs <;> first | rfl | (exfalso; omega)

/-- Witness for C1 at concrete inputs: the scenario of spec §8
(hr = 155, spo2 = 96, temp = 37 scores 30) and the stated boundary
values, obtained by instantiating the theorem. -/
theorem C1_scorer_assessment_witness :
    (EmotionAnalyzer.analyze 155 96 37 false false).score = 30
    ∧ emotionOfScore 60 = Emotion.criticalDistress
    ∧ emotionOfScore 59 = Emotion.highAnxiety
    ∧ emotionOfScore 100 = Emotion.criticalDistress := by
  have h := C1_scorer_assessment 155 96 37 false false
  exact ⟨h.1.trans (by decide), h.2.2.2.2.2.2.2.2.1, h.2.2.2.2.2.2.2.2.2,
    h.2.2.2.1 100 (by decide)⟩

/-- C10: the scorer is internally consistent — the emotion is Stable
iff the factors list is empty iff the score is 0; the two heart-rate
tags are mutually exclusive, as are the two oxygen tags; and the score
never exceeds 145 (= 30 + 25 + 15 + 40 + 35). -/
theorem C10_scorer_consistency (hr spo2 : ℤ) (temp : ℚ) (fall help : Bool) :
    ((EmotionAnalyzer.analyze hr spo2 temp fall help).emotion = Emotion.stable ↔
      (EmotionAnalyzer.analyze hr spo2 temp fall help).factors = [])
    ∧ ((EmotionAnalyzer.analyze hr spo2 temp fall help).factors = [] ↔
      (EmotionAnalyzer.analyze hr spo2 temp fall help).score = 0)
    ∧ ¬("elevated_hr" ∈ (EmotionAnalyzer.analyze hr spo2 temp fall help).factors ∧
        "raised_hr" ∈ (EmotionAnalyzer.analyze hr spo2 temp fall help).factors)
    ∧ ¬("low_oxygen" ∈ (EmotionAnalyzer.analyze hr spo2 temp fall help).factors ∧
        "reduced_oxygen" ∈ (EmotionAnalyzer.analyze hr spo2 temp fall help).factors)
    ∧ (EmotionAnalyzer.analyze hr spo2 temp fall help).score ≤ 145 := by
  refine ⟨?_, ?_, ?_, ?_, ?_⟩
  · rw [analyze_emotion, analyze_score, analyze_factors]
    split_ifs <;> decide
  · rw [analyze_factors, analyze_score]
    split_ifs <;> decide
  · rw [analyze_factors]
    split_ifs <;> decide
  · rw [analyze_factors]
    split_ifs <;> decide
  · rw [analyze_score]
    split_ifs <;> omega

/-- Witness for C10 at a concrete stable input, by instantiating the
theorem. -/
theorem C10_scorer_consistency_witness :
    (EmotionAnalyzer.analyze 75 97 37 false false).score ≤ 145
    ∧ ((EmotionAnalyzer.analyze 75 97 37 false false).emotion = Emotion.stable ↔
      (EmotionAnalyzer.analyze 75 97 37 false false).factors = []) := by
  have h := C10_scorer_consistency 75 97 37 false false
  exact ⟨h.2.2.2.2, h.1⟩

/-- C2 counterexample: an auto-triggered escalation attempt whose
notification call fails (`callOk = false`, the `except` branch of
main.py lines 314-316) leaves `LAST_AUTO_CALL` untouched — it is NOT
unconditionally set to the current time, because the assignment on
lines 311-312 sits inside the `try` block after `client.calls.create`.
Here the attempt at time 5 from the initial state leaves the cooldown
time `none` instead of `some 5`. -/
theorem C2_counterexample :
    (trigger_emergency_call "GENERAL"
        { hr := 150, spo2 := 97, temp := 37, fall := false, help := false }
        true false 5 initState).lastAutoCall = none
    ∧ (trigger_emergency_call "GENERAL"
        { hr := 150, spo2 := 97, temp := 37, fall := false, help := false }
        true false 5 initState).lastAutoCall ≠ some 5 := by
  constructor
  · rfl
  · intro h
    simp [trigger_emergency_call, initState] at h

/-- C2 amended: on an auto-triggered escalation attempt,
`LAST_AUTO_CALL` is set to the current time exactly when the
notification call succeeds; on a failed call it is left unchanged. -/
theorem C2_cooldown_updated_on_success (alert_type : String) (d : Reading)
    (callOk : Bool) (now : ℚ) (s : SysState) :
    (trigger_emergency_call alert_type d true callOk now s).lastAutoCall =
      if callOk then some now else s.lastAutoCall := by
  rw [trigger_lastAutoCall]
  cases callOk <;> rfl

/-- C3 counterexample: a manual trigger (the HEART button, main.py
lines 505-507) passes its reading through the distress scorer
(`EmotionAnalyzer.analyze` at line 254) but records it only in the
`Emergency_Calls` sheet — the `Vital_Signs` log stays empty, so this
scored reading is recorded zero times, not exactly once. -/
theorem C3_counterexample :
    (runEvents [Event.manual "HEART" 155 96 37 false false true 0]).scoredLog =
      [{ hr := 155, spo2 := 96, temp := 37, fall := false, help := false }]
    ∧ (runEvents [Event.manual "HEART" 155 96 37 false false true 0]).vitalLog = [] := by
  constructor <;> rfl

/-- C3 amended: every reading scored by the sensor loop is recorded
exactly once, in generation order, in the `Vital_Signs` log,
independent of whether it triggers escalation (escalation only appends
to the other sheets); readings scored through the dispatcher (manual
triggers) contribute nothing to the `Vital_Signs` log.  Formally: over
any event sequence, the `Vital_Signs` log is exactly the list of rows
of the sensor-loop readings, in order. -/
theorem C3_vital_log_exactly_once (es : List Event) :
    (runEvents es).vitalLog = es.flatMap vitalRowsOf := by
  unfold runEvents
  rw [foldl_vitalLog]
  rfl

/-- C4 counterexample to the claim as stated: two candidacy-qualifying
auto-triggered readings at t = 0 and t = 29 s do NOT always result in
only the first escalating — if the first escalation's notification
call fails, `LAST_AUTO_CALL` is never set (main.py lines 311-316), so
the t = 29 s reading also escalates: both dispatch an emergency call. -/
theorem C4_counterexample :
    (runEvents [Event.sensor 75 97 37 true false 0,
                Event.sensor 75 97 37 true true 29]).emergencyLog.map
        EmergencyRow.timestamp = [0, 29] := by
  show (stepEvent (Event.sensor 75 97 37 true true 29)
      (stepEvent (Event.sensor 75 97 37 true false 0) initState)).emergencyLog.map
      EmergencyRow.timestamp = [0, 29]
  have h1log := simulateStep_emergencyLog_dispatch 75 97 37 true false 0 initState
    rfl rfl
  have h1last : (stepEvent (Event.sensor 75 97 37 true false 0) initState).lastAutoCall =
      none := by
    rw [stepEvent, simulateStep_lastAutoCall_dispatch 75 97 37 true false 0 initState rfl rfl]
    rfl
  have h2log := simulateStep_emergencyLog_dispatch 75 97 37 true true 29
    (stepEvent (Event.sensor 75 97 37 true false 0) initState) rfl
    (by rw [h1last]; rfl)
  rw [stepEvent, h2log, stepEvent, h1log]
  rfl

/-- C4 amended: the cooldown gate admits an auto-triggered
candidacy-qualifying reading iff `LAST_AUTO_CALL` is unset or
`now - LAST_AUTO_CALL ≥ 30` s; hence, provided the first notification
call succeeds (only success sets the cooldown time), of
candidacy-qualifying auto readings at t = 0, t = 29 s and t = 31 s,
exactly the first and the third escalate. -/
theorem C4_cooldown_gate :
    (∀ (last : Option ℚ) (now : ℚ),
      cooldownOpen last now = true ↔
        (last = none ∨ ∃ t, last = some t ∧ now - t ≥ AUTO_CALL_COOLDOWN))
    ∧ (∀ (hr spo2 : ℤ) (temp : ℚ) (should_spike callOk : Bool) (now : ℚ)
        (s : SysState),
        (should_spike ||
          decide ((EmotionAnalyzer.analyze hr spo2 temp false false).score ≥ 25)) = true →
        ((simulateStep hr spo2 temp should_spike callOk now s).emergencyLog.length =
            s.emergencyLog.length + 1 ↔ cooldownOpen s.lastAutoCall now = true))
    ∧ (runEvents [Event.sensor 75 97 37 true true 0,
                  Event.sensor 75 97 37 true true 29,
                  Event.sensor 75 97 37 true true 31]).emergencyLog.map
        EmergencyRow.timestamp = [0, 31] := by
  refine ⟨?_, ?_, ?_⟩
  · intro last now
    cases last with
    | none => simp [cooldownOpen]
    | some t =>
        simp only [cooldownOpen, decide_eq_true_eq]
        constructor
        · intro h
          exact Or.inr ⟨t, rfl, h⟩
        · rintro (h | ⟨u, hu, h⟩)
          · exact absurd h (by simp)
          · rw [Option.some.injEq] at hu
            rw [hu]
            exact h
  · intro hr spo2 temp should_spike callOk now s hc
    by_cases hg : cooldownOpen s.lastAutoCall now = true
    · rw [simulateStep_emergencyLog_dispatch hr spo2 temp should_spike callOk now s hc hg]
      simp [hg]
    · rw [Bool.not_eq_true] at hg
      rw [simulateStep_emergencyLog_blocked hr spo2 temp should_spike callOk now s hg]
      simp [hg]
  · show (stepEvent (Event.sensor 75 97 37 true true 31)
        (stepEvent (Event.sensor 75 97 37 true true 29)
          (stepEvent (Event.sensor 75 97 37 true true 0) initState))).emergencyLog.map
        EmergencyRow.timestamp = [0, 31]
    have hgate29 : cooldownOpen (some 0) 29 = false := by
      simp only [cooldownOpen, decide_eq_false_iff_not, AUTO_CALL_COOLDOWN]
      norm_num
    have hgate31 : cooldownOpen (some 0) 31 = true := by
      simp only [cooldownOpen, decide_eq_true_eq, AUTO_CALL_COOLDOWN]
      norm_num
    have h1log := simulateStep_emergencyLog_dispatch 75 97 37 true true 0 initState
      rfl rfl
    have h1last : (stepEvent (Event.sensor 75 97 37 true true 0) initState).lastAutoCall =
        some 0 := by
      rw [stepEvent, simulateStep_lastAutoCall_dispatch 75 97 37 true true 0 initState rfl rfl]
      rfl
    have h2log := simulateStep_emergencyLog_blocked 75 97 37 true true 29
      (stepEvent (Event.sensor 75 97 37 true true 0) initState)
      (by rw [h1last]; exact hgate29)
    have h2last : (stepEvent (Event.sensor 75 97 37 true true 29)
        (stepEvent (Event.sensor 75 97 37 true true 0) initState)).lastAutoCall =
        some 0 := by
      rw [stepEvent,
        simulateStep_lastAutoCall_blocked 75 97 37 true true 29
          (stepEvent (Event.sensor 75 97 37 true true 0) initState)
          (by rw [h1last]; exact hgate29),
        h1last]
    have h3log := simulateStep_emergencyLog_dispatch 75 97 37 true true 31
      (stepEvent (Event.sensor 75 97 37 true true 29)
        (stepEvent (Event.sensor 75 97 37 true true 0) initState)) rfl
      (by rw [h2last]; exact hgate31)
    rw [stepEvent, h3log, stepEvent, h2log, stepEvent, h1log]
    rfl

/-- Witness for C4: instantiating the gate characterization and the
dispatch equivalence at concrete inputs (a spike reading against a
fresh cooldown dispatches). -/
theorem C4_cooldown_gate_witness :
    cooldownOpen none 0 = true
    ∧ (simulateStep 75 97 (368/10) true true 0 initState).emergencyLog.length =
        initState.emergencyLog.length + 1 := by
  refine ⟨(C4_cooldown_gate.1 none 0).mpr (Or.inl rfl), ?_⟩
  exact (C4_cooldown_gate.2.1 75 97 (368/10) true true 0 initState (by decide)).mpr
    (by decide)

/-- C5: a manual trigger (`trigger_alert`, which always calls
`trigger_emergency_call` with `auto_triggered = False`) dispatches
exactly one emergency call from ANY state — no candidacy or cooldown
check stands in its way — and never mutates the cooldown state:
`LAST_AUTO_CALL` is unchanged whether or not the call succeeds. -/
theorem C5_manual_bypasses_cooldown (alert_type : String) (hr spo2 : ℤ) (temp : ℚ)
    (fall help callOk : Bool) (now : ℚ) (s : SysState) :
    (stepEvent (Event.manual alert_type hr spo2 temp fall help callOk now) s).lastAutoCall =
      s.lastAutoCall
    ∧ (stepEvent (Event.manual alert_type hr spo2 temp fall help callOk now) s).emergencyLog =
      s.emergencyLog ++
      [{ timestamp := now, alertType := alert_type, heartRate := hr, spo2 := spo2,
         temperature := temp,
         emotionState := (EmotionAnalyzer.analyze hr spo2 temp fall help).emotion,
         autoTriggered := false }] := by
  constructor
  · rw [stepEvent, trigger_lastAutoCall]
    rfl
  · rw [stepEvent, trigger_emergencyLog]

/-- C6 counterexample: a notification attempt whose call fails does NOT
increment the counter — the increment (main.py lines 307-308) sits
inside the `try` block after `client.calls.create`, so a failed attempt
from the initial state leaves the counter at 0, not 1. -/
theorem C6_counterexample :
    (trigger_emergency_call "GENERAL"
        { hr := 150, spo2 := 97, temp := 37, fall := false, help := false }
        false false 0 initState).totalCalls = 0
    ∧ (trigger_emergency_call "GENERAL"
        { hr := 150, spo2 := 97, temp := 37, fall := false, help := false }
        false false 0 initState).totalCalls ≠ initState.totalCalls + 1 := by
  constructor
  · rfl
  · intro h
    simp [trigger_emergency_call, initState] at h

/-- C6 amended: the call counter is incremented exactly once per
SUCCESSFUL notification and not at all on a failed one; it is set to 0
only by the explicit reset action, and no event ever decreases it
otherwise (sensor ticks and manual triggers only preserve or increment
it). -/
theorem C6_counter_on_success (a : String) (d : Reading) (auto callOk : Bool)
    (now : ℚ) (s : SysState) :
    (trigger_emergency_call a d auto callOk now s).totalCalls =
      (if callOk then s.totalCalls + 1 else s.totalCalls)
    ∧ (stepEvent Event.reset s).totalCalls = 0
    ∧ (∀ e : Event, s.totalCalls ≤ (stepEvent e s).totalCalls ∨ e = Event.reset) := by
  refine ⟨trigger_totalCalls a d auto callOk now s, rfl, ?_⟩
  intro e
  cases e with
  | sensor hr spo2 temp should_spike callOk2 now2 =>
      exact Or.inl (simulateStep_totalCalls_mono hr spo2 temp should_spike callOk2 now2 s)
  | manual a2 hr spo2 temp fall help callOk2 now2 =>
      refine Or.inl ?_
      rw [stepEvent, trigger_totalCalls]
      split_ifs <;> omega
  | reset => exact Or.inr rfl

/-- C7: when the auto-trigger path escalates, the dispatched record's
alert type is selected by numeric priority, first match wins:
heartRate > 140 gives HEART; else spo2 < 90 gives SPO2; else
temperature > 38.5 gives TEMP; else GENERAL. -/
theorem C7_alert_type_priority (hr spo2 : ℤ) (temp : ℚ) (should_spike callOk : Bool)
    (now : ℚ) (s : SysState) :
    ((should_spike ||
        decide ((EmotionAnalyzer.analyze hr spo2 temp false false).score ≥ 25)) = true →
      cooldownOpen s.lastAutoCall now = true →
      (simulateStep hr spo2 temp should_spike callOk now s).emergencyLog.map
          EmergencyRow.alertType =
        s.emergencyLog.map EmergencyRow.alertType ++ [alertTypeFor hr spo2 temp])
    ∧ (hr > 140 → alertTypeFor hr spo2 temp = "HEART")
    ∧ (hr ≤ 140 → spo2 < 90 → alertTypeFor hr spo2 temp = "SPO2")
    ∧ (hr ≤ 140 → 90 ≤ spo2 → temp > 38.5 → alertTypeFor hr spo2 temp = "TEMP")
    ∧ (hr ≤ 140 → 90 ≤ spo2 → temp ≤ 38.5 → alertTypeFor hr spo2 temp = "GENERAL") := by
  refine ⟨?_, ?_, ?_, ?_, ?_⟩
  · intro hc hg
    rw [simulateStep_emergencyLog_dispatch hr spo2 temp should_spike callOk now s hc hg]
    simp
  · intro h
    unfold alertTypeFor HEART_RATE_CRITICAL
    rw [if_pos h]
  · intro h1 h2
    unfold alertTypeFor HEART_RATE_CRITICAL SPO2_CRITICAL
    rw [if_neg (by omega), if_pos h2]
  · intro h1 h2 h3
    unfold alertTypeFor HEART_RATE_CRITICAL SPO2_CRITICAL TEMP_CRITICAL_HIGH
    rw [if_neg (by omega), if_neg (by omega), if_pos (by exact_mod_cast h3)]
  · intro h1 h2 h3
    unfold alertTypeFor HEART_RATE_CRITICAL SPO2_CRITICAL TEMP_CRITICAL_HIGH
    rw [if_neg (by omega), if_neg (by omega), if_neg (by push_cast; linarith)]

/-- Witness for C7: the priority order at concrete readings, including
a dispatching sensor step, by instantiating the theorem. -/
theorem C7_alert_type_priority_witness :
    (simulateStep 155 96 37 true true 0 initState).emergencyLog.map
        EmergencyRow.alertType = ["HEART"]
    ∧ alertTypeFor 150 97 37 = "HEART"
    ∧ alertTypeFor 120 85 37 = "SPO2"
    ∧ alertTypeFor 120 95 39 = "TEMP"
    ∧ alertTypeFor 120 95 37 = "GENERAL" := by
  refine ⟨?_, ?_, ?_, ?_, ?_⟩
  · have h := (C7_alert_type_priority 155 96 37 true true 0 initState).1
      (by decide) (by decide)
    rw [h]
    rfl
  · exact (C7_alert_type_priority 150 97 37 false false 0 initState).2.1 (by decide)
  · exact (C7_alert_type_priority 120 85 37 false false 0 initState).2.2.1
      (by decide) (by decide)
  · exact (C7_alert_type_priority 120 95 39 false false 0 initState).2.2.2.1
      (by decide) (by decide) (by norm_num)
  · exact (C7_alert_type_priority 120 95 37 false false 0 initState).2.2.2.2
      (by decide) (by decide) (by norm_num)

/-- C8: ledger initialization is idempotent — a missing backing store
is created with the four empty sheets, an existing store is left
exactly as it is, and running initialization twice equals running it
once (no schema duplication, no record loss). -/
theorem C8_init_idempotent :
    init_excel_file none = some emptyExcelFile
    ∧ (∀ f : ExcelFile, init_excel_file (some f) = some f)
    ∧ (∀ store : Option ExcelFile,
        init_excel_file (init_excel_file store) = init_excel_file store) := by
  refine ⟨rfl, fun f => rfl, ?_⟩
  intro store
  cases store <;> rfl

/-- C9: the claim's guarantee fails on the code.  The source appends by
an unlocked read-modify-write of the whole sheet (main.py lines
172-180) while dispatches run on separate threads; under the
interleaving read₁, read₂, write₁, write₂ two concurrent appends to the
same (empty) stream leave ONE record — the first append is lost —
whereas the serialized order leaves the required two.  The mutual
exclusion the claim invokes does not exist in the code. -/
theorem C9_lost_update :
    (runRmw rmwRowA rmwRowB [RmwOp.read1, RmwOp.read2, RmwOp.write1, RmwOp.write2]
        { sheet := [], snap1 := none, snap2 := none }).sheet = [rmwRowB]
    ∧ (runRmw rmwRowA rmwRowB [RmwOp.read1, RmwOp.write1, RmwOp.read2, RmwOp.write2]
        { sheet := [], snap1 := none, snap2 := none }).sheet = [rmwRowA, rmwRowB] := by
  constructor <;> rfl
